import Mathlib

/-!
Verification development for the molview repository (Python sources under
src/molview).  The Python code is shallowly embedded: pure functions become
Lean functions, methods that mutate the viewer object become functions from
the viewer state to a new state, and Python exceptions become `Except`
results (an `Except.error` result leaves the caller's state untouched, which
is exactly what a raised exception does in the source, where every `raise`
happens before any attribute assignment of the failing call).
Python `float` arithmetic in the gradient code is embedded as exact rational
arithmetic represented by integer numerator/denominator pairs; on every input
exercised by the claims the float computations of the source are exact, so
the embedding agrees with the source there.
-/

/-! ## Python string primitives (str.strip, str.split, str.lower, ...) -/

/-- Python whitespace characters for `str.strip` (space, tab, newline,
carriage return, vertical tab, form feed). -/
def isPyWs (c : Char) : Bool :=
  c == ' ' || c == '\t' || c == '\n' || c == '\r' || c.toNat == 11 || c.toNat == 12

/-- Strip leading and trailing Python whitespace from a character list. -/
def stripChars (l : List Char) : List Char :=
  ((l.dropWhile isPyWs).reverse.dropWhile isPyWs).reverse

/-- Python `s.split('\n')`: split on every newline, keeping empty pieces. -/
def splitNl : List Char → List (List Char)
  | [] => [[]]
  | c :: rest =>
    if c == '\n' then [] :: splitNl rest
    else
      match splitNl rest with
      | [] => [[c]]
      | l :: ls => (c :: l) :: ls

/-- `needle` is a prefix of `hay` (Python `str.startswith`). -/
def listLeads : List Char → List Char → Bool
  | [], _ => true
  | _ :: _, [] => false
  | a :: as, b :: bs => a == b && listLeads as bs

/-- `needle` occurs as a contiguous substring of `hay` (Python `in`). -/
def listHasSub (needle : List Char) : List Char → Bool
  | [] => needle.isEmpty
  | c :: rest => listLeads needle (c :: rest) || listHasSub needle rest

/-- Python `s.strip()`. -/
def pyStrip (s : String) : String := ⟨stripChars s.data⟩

/-- Python `s.lower()` (ASCII, which is all the source compares). -/
def pyLower (s : String) : String := ⟨s.data.map Char.toLower⟩

/-- Python `s.upper()` (ASCII). -/
def pyUpper (s : String) : String := ⟨s.data.map Char.toUpper⟩

/-- Python `s.startswith(pre)`. -/
def pyStarts (s pre : String) : Bool := listLeads pre.data s.data

/-- Python `sub in s`. -/
def pyHasSub (s sub : String) : Bool := listHasSub sub.data s.data

/-- Python slice `s[start:start+len]`. -/
def pySlice (s : String) (start len : Nat) : String := ⟨(s.data.drop start).take len⟩

/-- Python `len(s)`. -/
def pyLen (s : String) : Nat := s.data.length

/-- Python truthiness test for a string (empty is falsy). -/
def strEmpty (s : String) : Bool := s.data.isEmpty

/-! ## Format detector — `MolView._detect_format` (src/molview/viewer.py:88-150) -/

inductive MolFormat where
  | pdb
  | mmcif
  | sdf
deriving DecidableEq

/-- The string tag `_detect_format` returns for each format. -/
def formatName : MolFormat → String
  | .pdb => ("pdb")
  | .mmcif => ("mmcif")
  | .sdf => ("sdf")

/-- viewer.py:103 — `[line.strip() for line in data.strip().split('\n')[:50]
if line.strip()]`. -/
def detectLines (data : String) : List String :=
  ((((splitNl (stripChars data.data)).take 50).map stripChars).filter
    (fun l => !l.isEmpty)).map (fun l => (⟨l⟩ : String))

/-- viewer.py:116-119 — a line opening an mmCIF construct. -/
def cifLine (l : String) : Bool :=
  pyStarts (pyLower l) ("loop_") || pyStarts (pyLower l) ("_atom_site") ||
    pyStarts (pyLower l) ("_cell")

/-- viewer.py:122-127 — SDF markers searched in the upper-cased full text. -/
def sdfMarker (data : String) : Bool :=
  let u := pyUpper data
  pyHasSub u ("$$$$") || pyHasSub u ("M  END") || pyHasSub u ("V2000") ||
    pyHasSub u ("V3000")

/-- viewer.py:131-133 — the PDB record keyword table. -/
def PDB_KEYWORDS : List String :=
  ["HEADER", "TITLE", "COMPND", "SOURCE", "KEYWDS", "EXPDTA",
   "AUTHOR", "REVDAT", "REMARK", "SEQRES", "HELIX", "SHEET",
   "ATOM", "HETATM", "MODEL", "CRYST1", "ORIGX", "SCALE", "MTRIX"]

/-- viewer.py:138 — `line[:6].strip().upper()`. -/
def recordType (l : String) : String := pyUpper (pyStrip (pySlice l 0 6))

/-- viewer.py:135-140 — keyword scan over the first 20 retained lines. -/
def pdbKeywordScan (lines : List String) : Bool :=
  (lines.take 20).any
    (fun l => decide (6 ≤ pyLen l) && PDB_KEYWORDS.contains (recordType l))

/-- viewer.py:143-147 — ATOM/HETATM scan over every retained line. -/
def atomScan (lines : List String) : Bool :=
  lines.any
    (fun l =>
      decide (4 ≤ pyLen l) &&
        (recordType l == ("ATOM") || recordType l == ("HETATM")))

/-- viewer.py:88-150 — `MolView._detect_format`, the whole priority chain. -/
def detect_format (data : String) : MolFormat :=
  match detectLines data with
  | [] => .pdb
  | first :: rest =>
    if pyStarts (pyLower first) ("data_") then .mmcif
    else if (first :: rest).any cifLine then .mmcif
    else if sdfMarker data then .sdf
    else if pdbKeywordScan (first :: rest) then .pdb
    else if atomScan (first :: rest) then .pdb
    else .pdb

/-! ## Python `int(s, 16)` and error values -/

deriving instance DecidableEq for Except

/-- Exception values raised by the embedded code. -/
inductive PyError where
  | valueError (msg : String)
  | indexError (msg : String)
  | httpError (code : Nat)
deriving DecidableEq

/-- Value of a single hexadecimal digit character, if any. -/
def hexVal (c : Char) : Option Nat :=
  if 48 ≤ c.toNat ∧ c.toNat ≤ 57 then some (c.toNat - 48)
  else if 97 ≤ c.toNat ∧ c.toNat ≤ 102 then some (c.toNat - 87)
  else if 65 ≤ c.toNat ∧ c.toNat ≤ 70 then some (c.toNat - 55)
  else none

/-- Digit run of Python `int(_, 16)` after the first digit: hex digits with
single underscores allowed between digits. -/
def hexCore : Nat → List Char → Option Nat
  | acc, [] => some acc
  | acc, '_' :: rest =>
    match rest with
    | [] => none
    | c :: rest2 =>
      match hexVal c with
      | some d => hexCore (acc * 16 + d) rest2
      | none => none
  | acc, c :: rest =>
    match hexVal c with
    | some d => hexCore (acc * 16 + d) rest
    | none => none

/-- Nonempty run of hex digits (no leading underscore). -/
def hexDigitsVal (l : List Char) : Option Nat :=
  match l with
  | [] => none
  | c :: rest =>
    match hexVal c with
    | some d => hexCore d rest
    | none => none

/-- Digits after an `0x`/`0X` prefix; Python allows one underscore directly
after the prefix. -/
def hex0xTail (l : List Char) : Option Nat :=
  match l with
  | '_' :: rest => hexDigitsVal rest
  | _ => hexDigitsVal l

/-- Magnitude part of `int(_, 16)`: optional `0x` prefix, then digits. -/
def afterSignHex (l : List Char) : Option Nat :=
  match l with
  | '0' :: 'x' :: rest => hex0xTail rest
  | '0' :: 'X' :: rest => hex0xTail rest
  | _ => hexDigitsVal l

/-- Python `int(s, 16)`: strip whitespace, optional sign, optional `0x`
prefix, hex digits; `none` models the `ValueError` of a malformed literal. -/
def pyParseInt16 (s : String) : Option Int :=
  match stripChars s.data with
  | '+' :: rest => (afterSignHex rest).map (fun n => (n : Int))
  | '-' :: rest => (afterSignHex rest).map (fun n => -(n : Int))
  | l => (afterSignHex l).map (fun n => (n : Int))

/-! ## Color themes — src/molview/colors.py -/

/-- colors.py:4-14 — the fixed registry of rainbow palettes, in source
order. -/
def RAINBOW_PALETTES : List (String × List String) :=
  [("rainbow", ["#0000FF", "#00FFFF", "#00FF00", "#FFFF00", "#FF8000", "#FF0000"]),
   ("viridis", ["#440154", "#482878", "#3e4989", "#31688e", "#26828e", "#1f9e89",
                "#35b779", "#6ece58", "#b5de2b", "#fde724"]),
   ("plasma", ["#0d0887", "#46039f", "#7201a8", "#9c179e", "#bd3786", "#d8576b",
               "#ed7953", "#fb9f3a", "#fdca26", "#f0f921"]),
   ("magma", ["#000004", "#1c1044", "#4f127b", "#812581", "#b5367a", "#e55964",
              "#fb8861", "#fec287", "#fcfdbf"]),
   ("blue-red", ["#0000FF", "#FF0000"]),
   ("pastel", ["#FFB3BA", "#FFDFBA", "#FFFFBA", "#BAFFC9", "#BAE1FF", "#E0BBE4"])]

/-- Dictionary lookup in `RAINBOW_PALETTES`. -/
def lookupPalette (p : String) : Option (List String) :=
  (RAINBOW_PALETTES.find? (fun kv => kv.1 == p)).map (fun kv => kv.2)

/-- The parameter dictionaries that `to_molstar_config` can produce
(colors.py: the `params` values of the per-theme config dicts). -/
inductive ColorParams where
  | empty
  | uniformValue (value : Int)
  | chainColors (colors : List (String × String))
  | secondaryColors (alphaHelix threeTenHelix piHelix betaStrand betaTurn
      coil bend turn dna rna carbohydrate saturation lightness : Int)
  | rainbowSeq (palette : String) (colors : List String)
deriving DecidableEq

/-- A Molstar theme configuration: the dict returned by
`to_molstar_config` (a `name` plus a `params` dict). -/
structure MolstarConfig where
  name : String
  params : ColorParams
deriving DecidableEq

/-- The theme objects of colors.py, one constructor per `ColorTheme`
subclass, carrying the attributes set in each `__init__`.  Defaults that
Python resolves at construction time (secondary colors, chain `or {}`,
rainbow palette lookup) are resolved by `get_color_theme` below, as in the
source. -/
inductive ColorTheme where
  | custom (color : String)
  | element
  | residue
  | chain (custom_colors : List (String × String))
  | secondary (helix_color sheet_color coil_color : String)
  | rainbow (palette : String) (colors : List String)
  | plddt
deriving DecidableEq

/-- colors.py:76-79 — `_hex_to_int`: `int(hex_color.replace('#', ''), 16)`.
`replace` removes every `#`. -/
def removeHash (s : String) : String := ⟨s.data.filter (fun c => !(c == '#'))⟩

/-- `_hex_to_int` as a fallible computation (malformed hex raises
`ValueError` inside `int`). -/
def hexToIntE (s : String) : Except PyError Int :=
  match pyParseInt16 (removeHash s) with
  | some n => .ok n
  | none => .error (.valueError (("invalid literal for int with base 16: ") ++ removeHash s))

/-- colors.py:58-198 — `to_molstar_config` for every theme variant.  The
secondary theme converts the helix color first, then sheet, then coil, in
the dict-literal order of the source. -/
def ColorTheme.to_molstar_config : ColorTheme → Except PyError MolstarConfig
  | .custom color =>
    match hexToIntE color with
    | .error e => .error e
    | .ok n => .ok { name := ("uniform"), params := .uniformValue n }
  | .element => .ok { name := ("element-symbol"), params := .empty }
  | .residue => .ok { name := ("residue-name"), params := .empty }
  | .chain colors =>
    if colors.isEmpty then .ok { name := ("chain-id"), params := .empty }
    else .ok { name := ("custom-chain-colors"), params := .chainColors colors }
  | .secondary h s c =>
    match hexToIntE h, hexToIntE s, hexToIntE c with
    | .ok hi, .ok si, .ok ci =>
      .ok { name := ("secondary-structure"),
            params := .secondaryColors hi hi hi si si ci ci ci ci ci ci (-1) 0 }
    | .error e, _, _ => .error e
    | .ok _, .error e, _ => .error e
    | .ok _, .ok _, .error e => .error e
  | .rainbow p cs => .ok { name := ("rainbow-sequence"), params := .rainbowSeq p cs }
  | .plddt => .ok { name := ("plddt-confidence"), params := .empty }

/-- The keyword arguments `get_color_theme` reads from `**kwargs`. -/
structure ColorKwargs where
  color : Option String
  palette : Option String
  helix_color : Option String
  sheet_color : Option String
  coil_color : Option String
  custom_colors : Option (List (String × String))
deriving DecidableEq

/-- No keyword arguments passed. -/
def noKwargs : ColorKwargs := ⟨none, none, none, none, none, none⟩

/-- Python `x or default` for an optional string (None and the empty string
are falsy). -/
def pyOrStr (o : Option String) (dflt : String) : String :=
  match o with
  | none => dflt
  | some s => if strEmpty s then dflt else s

/-- Error message of colors.py:244 (quoting punctuation simplified; no
claim inspects message text beyond identity). -/
def unknownModeMsg (m : String) : String :=
  ("Unknown color mode ") ++ m ++
    (". Available: custom, element, residue, chain, secondary, rainbow, plddt")

/-- Error message of colors.py:174 (quoting punctuation simplified). -/
def unknownPaletteMsg (p : String) : String :=
  ("Unknown palette ") ++ p ++
    (". Available: rainbow, viridis, plasma, magma, blue-red, pastel")

/-- colors.py:201-244 — `get_color_theme`.  The mode is lower-cased, then
dispatched; `custom` defaults its color to `#4ECDC4` via `kwargs.get`;
`chain` applies `custom_colors or {}`; `secondary` defaults each color via
`or`; `rainbow` looks its palette up in the fixed registry and raises on a
miss; anything else raises. -/
def get_color_theme (mode : String) (kw : ColorKwargs) : Except PyError ColorTheme :=
  let m := pyLower mode
  if m == ("custom") then .ok (.custom (kw.color.getD ("#4ECDC4")))
  else if m == ("element") then .ok .element
  else if m == ("residue") then .ok .residue
  else if m == ("chain") then .ok (.chain (kw.custom_colors.getD []))
  else if m == ("secondary") then
    .ok (.secondary (pyOrStr kw.helix_color ("#0FA3FF"))
      (pyOrStr kw.sheet_color ("#24B235")) (pyOrStr kw.coil_color ("#E8E8E8")))
  else if m == ("rainbow") then
    let p := kw.palette.getD ("rainbow")
    match lookupPalette p with
    | some cs => .ok (.rainbow p cs)
    | none => .error (.valueError (unknownPaletteMsg p))
  else if m == ("plddt") then .ok .plddt
  else .error (.valueError (unknownModeMsg m))

/-! ## Gradient utilities — colors.py:248-314.
Python float arithmetic is embedded as exact rational arithmetic carried as
integer numerator/denominator pairs; Python `int()` on a float truncates
toward zero, embedded as `truncDivZ`. -/

/-- Truncation toward zero of the rational `a / b` with `b > 0`
(Python `int()` applied to a float). -/
def truncDivZ (a : Int) (b : Nat) : Int :=
  if 0 ≤ a then Int.ofNat (a.toNat / b) else -Int.ofNat (a.natAbs / b)

/-- colors.py:248-251 — `hex_to_rgb`: `lstrip('#')` (leading hashes only),
then `int(h[i:i+2], 16)` for i = 0, 2, 4, failing left to right. -/
def hex_to_rgb (s : String) : Except PyError (Int × Int × Int) :=
  let h := s.data.dropWhile (fun c => c == '#')
  match pyParseInt16 ⟨h.take 2⟩ with
  | none => .error (.valueError (("invalid literal for int with base 16: ") ++ (⟨h.take 2⟩ : String)))
  | some r =>
    match pyParseInt16 ⟨(h.drop 2).take 2⟩ with
    | none => .error (.valueError (("invalid literal for int with base 16: ") ++ (⟨(h.drop 2).take 2⟩ : String)))
    | some g =>
      match pyParseInt16 ⟨(h.drop 4).take 2⟩ with
      | none => .error (.valueError (("invalid literal for int with base 16: ") ++ (⟨(h.drop 4).take 2⟩ : String)))
      | some b => .ok (r, g, b)

/-- Hex digit character for a value below 16 (lowercase, as Python
`format(_, 'x')`). -/
def hexDigitChar (n : Nat) : Char :=
  if n < 10 then Char.ofNat (48 + n) else Char.ofNat (87 + n)

/-- Hex digits of `n`, most significant first (fuel-structured). -/
def natHexAux : Nat → Nat → List Char
  | 0, _ => []
  | fuel + 1, n => if n == 0 then [] else natHexAux fuel (n / 16) ++ [hexDigitChar (n % 16)]

/-- Python `format(n, 'x')` for `n : Nat`. -/
def natHex (n : Nat) : List Char := if n == 0 then ['0'] else natHexAux (n + 1) n

/-- Left-pad with zeros to the given width. -/
def padLeftZeros (width : Nat) (l : List Char) : List Char :=
  List.replicate (width - l.length) '0' ++ l

/-- Python `format(n, '02x')` for an `Int` (sign counts toward the width,
zeros pad between sign and digits). -/
def intHexPad2 (n : Int) : List Char :=
  if 0 ≤ n then padLeftZeros 2 (natHex n.toNat)
  else '-' :: padLeftZeros 1 (natHex n.natAbs)

/-- colors.py:254-256 — `rgb_to_hex`: `f"#{r:02x}{g:02x}{b:02x}".upper()`. -/
def rgb_to_hex (r g b : Int) : String :=
  pyUpper ⟨'#' :: (intHexPad2 r ++ intHexPad2 g ++ intHexPad2 b)⟩

/-- colors.py:259-268 — `interpolate_color`.  The float `factor` is the
exact rational `fnum / fden` with `fden > 0`; each channel is
`int(c1 + factor * (c2 - c1))`, truncating toward zero. -/
def interpolate_color (color1 color2 : String) (fnum fden : Nat) : Except PyError String :=
  match hex_to_rgb color1 with
  | .error e => .error e
  | .ok (r1, g1, b1) =>
    match hex_to_rgb color2 with
    | .error e => .error e
    | .ok (r2, g2, b2) =>
      let r := truncDivZ (r1 * fden + fnum * (r2 - r1)) fden
      let g := truncDivZ (g1 * fden + fnum * (g2 - g1)) fden
      let b := truncDivZ (b1 * fden + fnum * (b2 - b1)) fden
      .ok (rgb_to_hex r g b)

/-- One iteration of the colors.py:299-312 loop for index `i`:
`position = i / (steps - 1) * segment_count` held exactly as the fraction
`(i * segment_count) / (steps - 1)`; `segment_index = int(position)`;
`segment_position = position - segment_index`.  `stepsNat ≥ 2` at every
call site. -/
def gradStep (colors : List String) (stepsNat : Nat) (i : Nat) : Except PyError String :=
  let segment_count := colors.length - 1
  let den := stepsNat - 1
  let num := i * segment_count
  let segment_index := num / den
  if segment_count ≤ segment_index then
    match colors.getLast? with
    | some c => .ok c
    | none => .error (.indexError ("list index out of range"))
  else
    match colors.get? segment_index, colors.get? (segment_index + 1) with
    | some c1, some c2 => interpolate_color c1 c2 (num % den) den
    | _, _ => .error (.indexError ("list index out of range"))

/-- colors.py:271-314 — `generate_gradient`, with the source's edge-case
checks in source order: `steps <= 0`, then `steps == 1` (which indexes
`colors[0]` and therefore raises IndexError on an empty list), then
`len(colors) == 0`, then `len(colors) == 1`, then the interpolation loop. -/
def generate_gradient (colors : List String) (steps : Int) : Except PyError (List String) :=
  if steps ≤ 0 then .ok []
  else if steps == 1 then
    match colors with
    | c :: _ => .ok [c]
    | [] => .error (.indexError ("list index out of range"))
  else if colors.length == 0 then .ok []
  else if colors.length == 1 then
    match colors with
    | c :: _ => .ok (List.replicate steps.toNat c)
    | [] => .error (.indexError ("list index out of range"))
  else
    (List.range steps.toNat).mapM (gradStep colors steps.toNat)

/-! ## Viewer state — `MolView` (src/molview/viewer.py) -/

/-- viewer.py:222-227 / 241-246 — a stored model dict. -/
structure Model where
  data : String
  format : String
  keepH : Bool
  name : String
deriving DecidableEq

/-- Grid-mode state: `self.rows`, `self.cols` (the `viewergrid` tuple) and
`self.grid_models`, which only exist when `viewergrid` was given. -/
structure GridState where
  rows : Nat
  cols : Nat
  cells : List (List (Option Model))
deriving DecidableEq

/-- The `MolView` instance attributes set in `__init__`
(viewer.py:44-86).  `grid` bundles `viewergrid`/`rows`/`cols`/`grid_models`,
present exactly when grid mode is active; `spin_speed` (float 0.2) is
embedded as a rational. -/
structure MolView where
  width : Int
  height : Int
  panel : Bool
  grid : Option GridState
  total_viewers : Nat
  models : List Model
  current_model_index : Int
  color_mode : String
  color_params : ColorParams
  background_color : String
  surface_enabled : Bool
  surface_opacity : Int
  illustrative_enabled : Bool
  spin_enabled : Bool
  spin_speed : ℚ
  show_sequence : Bool
  show_animation : Bool
  remove_solvent : Bool
  style_cartoon : Bool
  style_stick : Bool
  style_sphere : Bool
  style_line : Bool
deriving DecidableEq

/-- viewer.py:44-86 — `MolView.__init__`. -/
def molviewInit (width height : Int) (viewergrid : Option (Nat × Nat)) (panel : Bool) :
    MolView :=
  { width := width
    height := height
    panel := panel
    grid :=
      match viewergrid with
      | none => none
      | some (r, c) =>
        some { rows := r, cols := c, cells := List.replicate r (List.replicate c none) }
    total_viewers := match viewergrid with | none => 1 | some (r, c) => r * c
    models := []
    current_model_index := -1
    color_mode := ("element")
    color_params := ColorParams.empty
    background_color := ("#FFFFFF")
    surface_enabled := false
    surface_opacity := 40
    illustrative_enabled := false
    spin_enabled := false
    spin_speed := mkRat 1 5
    show_sequence := false
    show_animation := false
    remove_solvent := false
    style_cartoon := true
    style_stick := false
    style_sphere := false
    style_line := false }

/-- All cell coordinates of a `rows × cols` grid in row-major order (the
iteration order of the nested `for row ... for col ...` loops of
viewer.py:623-624). -/
def allCells (rows cols : Nat) : List (Nat × Nat) :=
  ((List.range rows).map (fun r => (List.range cols).map (fun c => (r, c)))).flatten

/-- `grid_models[r][c]` as an optional read. -/
def cellGet (cells : List (List (Option Model))) (r c : Nat) : Option (Option Model) :=
  (cells.get? r).bind (fun row => row.get? c)

/-- `self.grid_models[row][col] is None`. -/
def cellIsNone (g : GridState) (r c : Nat) : Bool :=
  match cellGet g.cells r c with
  | some none => true
  | _ => false

/-- First coordinate in the list whose cell is empty. -/
def findNone (g : GridState) : List (Nat × Nat) → Option (Nat × Nat)
  | [] => none
  | rc :: rest => if cellIsNone g rc.1 rc.2 then some rc else findNone g rest

/-- viewer.py:613-627 — `_get_next_available_cell`; `none` models the
`ValueError` raised when the grid is full. -/
def nextAvailableCell (g : GridState) : Option (Nat × Nat) :=
  findNone g (allCells g.rows g.cols)

/-- viewer.py:235 — `self.grid_models[row][col] = model`. -/
def setCell (cells : List (List (Option Model))) (r c : Nat) (m : Model) :
    List (List (Option Model)) :=
  match cells.get? r with
  | none => cells
  | some row => cells.set r (row.set c (some m))

/-- viewer.py:216 — `sum(1 for row in self.grid_models for cell in row if
cell is not None)`. -/
def occupiedCount (g : GridState) : Nat :=
  (g.cells.map (fun row => row.countP (fun cell => cell.isSome))).sum

/-- viewer.py:627 — the grid-full message. -/
def gridFullMsg (rows cols : Nat) : String :=
  ("Grid is full (") ++ toString rows ++ ("x") ++ toString cols ++ (")")

/-- viewer.py:234 — the out-of-bounds message. -/
def oobMsg (row col : Int) (rows cols : Nat) : String :=
  ("viewer position (") ++ toString row ++ (", ") ++ toString col ++
    (") out of bounds for ") ++ toString rows ++ ("x") ++ toString cols ++ (" grid")

/-- viewer.py:208 — the unsupported-format message (quoting punctuation
simplified). -/
def unsupportedFormatMsg (f : String) : String :=
  ("Unsupported format ") ++ f ++ (". Use pdb, mmcif, or sdf")

/-- viewer.py:210-251 — the body of `addModel` after format normalization:
grid mode computes the default name (count-based when auto-placed,
coordinate-based when explicitly placed), auto-assigns via
`_get_next_available_cell`, bounds-checks the position, and writes the
cell; linear mode appends and moves the active index to the new model. -/
def addModelPlace (v : MolView) (data fmt : String) (keepH : Bool)
    (viewer : Option (Int × Int)) (name : Option String) : Except PyError MolView :=
  match v.grid with
  | some g =>
    let nm :=
      match name with
      | some n => n
      | none =>
        match viewer with
        | none => ("Structure ") ++ toString (occupiedCount g + 1)
        | some (r, c) => ("Structure (") ++ toString r ++ (",") ++ toString c ++ (")")
    let m : Model := { data := data, format := fmt, keepH := keepH, name := nm }
    let placed : Except PyError (Int × Int) :=
      match viewer with
      | none =>
        match nextAvailableCell g with
        | none => .error (.valueError (gridFullMsg g.rows g.cols))
        | some (r, c) => .ok ((r : Int), (c : Int))
      | some rc => .ok rc
    match placed with
    | .error e => .error e
    | .ok (r, c) =>
      if 0 ≤ r ∧ r < (g.rows : Int) ∧ 0 ≤ c ∧ c < (g.cols : Int) then
        .ok { v with grid := some { g with cells := setCell g.cells r.toNat c.toNat m } }
      else .error (.valueError (oobMsg r c g.rows g.cols))
  | none =>
    let nm :=
      match name with
      | some n => n
      | none => ("Structure ") ++ toString (v.models.length + 1)
    let m : Model := { data := data, format := fmt, keepH := keepH, name := nm }
    let ms := v.models ++ [m]
    .ok { v with models := ms, current_model_index := (ms.length : Int) - 1 }

/-- viewer.py:152-251 — `addModel`: auto-detect the format when omitted,
lower-case it, normalize `cif`/`mmcif` to `mmcif`, reject anything that is
not `pdb`/`sdf` after that, then place the model. -/
def MolView.addModel (v : MolView) (data : String) (format : Option String)
    (keepH : Bool) (viewer : Option (Int × Int)) (name : Option String) :
    Except PyError MolView :=
  let fmt0 := pyLower (match format with
    | none => formatName (detect_format data)
    | some f => f)
  if fmt0 == ("cif") || fmt0 == ("mmcif") then
    addModelPlace v data ("mmcif") keepH viewer name
  else if fmt0 == ("pdb") || fmt0 == ("sdf") then
    addModelPlace v data fmt0 keepH viewer name
  else .error (.valueError (unsupportedFormatMsg fmt0))

/-- viewer.py:286-331 — `setColorMode`: resolve the theme, build its
config, then assign `color_mode` and `color_params` together; both calls
precede both assignments, so a raise leaves the viewer untouched. -/
def MolView.setColorMode (v : MolView) (mode : String) (kw : ColorKwargs) :
    Except PyError MolView :=
  match get_color_theme mode kw with
  | .error e => .error e
  | .ok theme =>
    match theme.to_molstar_config with
    | .error e => .error e
    | .ok config => .ok { v with color_mode := config.name, color_params := config.params }

/-- viewer.py:411-441 — `setLayout` validates its mode synchronously and
otherwise changes nothing. -/
def MolView.setLayout (v : MolView) (mode : String) : Except PyError MolView :=
  if mode == ("single") || mode == ("grid") then .ok v
  else .error (.valueError ("mode must be single or grid"))

/-- viewer.py:512-527 — `clear`: empty the linear model list and reset the
active index; nothing else is touched. -/
def MolView.clear (v : MolView) : MolView :=
  { v with models := [], current_model_index := -1 }

/-! ## Remote fetch — src/molview/query.py.  `urllib.request.urlopen` is
external I/O: it is passed in as an oracle mapping a URL to either a
response body or an HTTP error code, and the error-translation logic of the
source is embedded around it. -/

/-- Outcome of `urlopen`: a decoded body, or an `HTTPError` with a status
code. -/
inductive HttpResult where
  | success (body : String)
  | failure (code : Nat)
deriving DecidableEq

/-- query.py:56-58 — the RCSB download URL. -/
def rcsbUrl (pid ext : String) : String :=
  ("https://files.rcsb.org/download/") ++ pid ++ (".") ++ ext

/-- query.py:134 — the AlphaFold DB URL. -/
def alphafoldUrl (uid : String) (version : Nat) : String :=
  ("https://alphafold.ebi.ac.uk/files/AF-") ++ uid ++ ("-F1-model_v") ++
    toString version ++ (".cif")

/-- The shared `try/except urllib.error.HTTPError` block of query.py:60-68
and 136-144: a success body is returned, a 404 becomes a `ValueError` with
the given not-found message, any other `HTTPError` is re-raised unchanged. -/
def handle404 (notFoundMsg : String) (res : HttpResult) : Except PyError String :=
  match res with
  | .success body => .ok body
  | .failure code =>
    if code == 404 then .error (.valueError notFoundMsg)
    else .error (.httpError code)

/-- query.py:7-68 — `fetch_pdb`: normalize the id, validate the format,
fetch, translate HTTP 404 into a `ValueError` (domain-level not-found) and
re-raise every other `HTTPError` unchanged. -/
def fetch_pdb (http : String → HttpResult) (pdb_id : String) (format : String) :
    Except PyError String :=
  let pid := pyUpper (pyStrip pdb_id)
  let fmt := pyLower format
  if !(fmt == ("pdb") || fmt == ("mmcif") || fmt == ("cif")) then
    .error (.valueError (("Format must be pdb or mmcif, got ") ++ fmt))
  else
    let fmt2 := if fmt == ("cif") then ("mmcif") else fmt
    let url := if fmt2 == ("pdb") then rcsbUrl pid ("pdb") else rcsbUrl pid ("cif")
    handle404 (("PDB ID ") ++ pid ++ (" not found in RCSB PDB database")) (http url)

/-- query.py:98-144 — `fetch_alphafold`: normalize the id, fetch, translate
HTTP 404 into a `ValueError` and re-raise every other `HTTPError`. -/
def fetch_alphafold (http : String → HttpResult) (uniprot_id : String) (version : Nat) :
    Except PyError String :=
  let uid := pyUpper (pyStrip uniprot_id)
  handle404 (("UniProt ID ") ++ uid ++ (" not found in AlphaFold DB (version ") ++
    toString version ++ (")")) (http (alphafoldUrl uid version))

/-! ## Concrete fixtures shared by the theorems below -/

/-- A fresh 2×2 grid-mode viewer (`mv.view(viewergrid=(2, 2))`). -/
def gridV0 : MolView := molviewInit 800 600 (some (2, 2)) false

/-- A fresh linear-mode viewer (`mv.view()`). -/
def linearV0 : MolView := molviewInit 800 600 none false

/-- The grid state `gridV0` starts with. -/
def grid22 : GridState :=
  { rows := 2, cols := 2, cells := List.replicate 2 (List.replicate 2 none) }

/-- One auto-placed `addModel` call (no explicit position, no name) on the
previous result, propagating an earlier failure. -/
def autoAddStep (r : Except PyError MolView) : Except PyError MolView :=
  match r with
  | .error e => .error e
  | .ok v => v.addModel ("HEADER    TEST") (some ("pdb")) false none none

/-- `n` successive auto-placed `addModel` calls on a fresh 2×2 grid. -/
def gvN : Nat → Except PyError MolView
  | 0 => .ok gridV0
  | n + 1 => autoAddStep (gvN n)

/-- Row-major list of the occupied cells of a grid-mode viewer. -/
def occList (v : MolView) : List (Nat × Nat) :=
  match v.grid with
  | none => []
  | some g => (allCells g.rows g.cols).filter (fun rc => !(cellIsNone g rc.1 rc.2))

/-- Occupied cells of a successful result. -/
def okOccCells (res : Except PyError MolView) : Option (List (Nat × Nat)) :=
  match res with
  | .error _ => none
  | .ok v => some (occList v)

/-- Name of the model stored at `(r, c)` in a successful grid result. -/
def okCellName (res : Except PyError MolView) (r c : Nat) : Option String :=
  match res with
  | .error _ => none
  | .ok v =>
    match v.grid with
    | none => none
    | some g =>
      match cellGet g.cells r c with
      | some (some m) => some m.name
      | _ => none

/-- Name of the most recently appended model in a successful linear
result. -/
def okLastName (res : Except PyError MolView) : Option String :=
  match res with
  | .error _ => none
  | .ok v => (v.models.getLast?).map Model.name

/-! ## Helper lemmas -/

/-- A successful `get?` witnesses an in-range index. -/
theorem lt_length_of_cellRead {α : Type} {l : List α} {i : Nat} {x : α}
    (h : l.get? i = some x) : i < l.length := by
  rcases List.get?_eq_some.mp h with ⟨hlt, _⟩
  exact hlt

/-- Reading back an in-range `set`. -/
theorem get?_set_back {α : Type} {l : List α} {i : Nat} {x : α} (a : α)
    (h : l.get? i = some x) : (l.set i a).get? i = some a :=
  List.get?_set_eq_of_lt a (lt_length_of_cellRead h)

/-- `findNone` only returns members of its search list, and only empty
cells. -/
theorem findNone_spec (g : GridState) :
    ∀ (l : List (Nat × Nat)) (rc : Nat × Nat), findNone g l = some rc →
      rc ∈ l ∧ cellIsNone g rc.1 rc.2 = true := by
  intro l
  induction l with
  | nil => intro rc h; exact Option.noConfusion h
  | cons hd tl ih =>
    intro rc h
    by_cases hc : cellIsNone g hd.1 hd.2 = true
    · simp [findNone, hc] at h
      subst h
      exact ⟨List.mem_cons_self hd tl, hc⟩
    · simp [findNone, hc] at h
      rcases ih rc h with ⟨hmem, hname⟩
      exact ⟨List.mem_cons_of_mem hd hmem, hname⟩

/-- Membership in `allCells` bounds both coordinates. -/
theorem allCells_bounds {rows cols : Nat} {rc : Nat × Nat}
    (h : rc ∈ allCells rows cols) : rc.1 < rows ∧ rc.2 < cols := by
  unfold allCells at h
  rcases List.mem_flatten.mp h with ⟨sub, hsub, hrc⟩
  rcases List.mem_map.mp hsub with ⟨r, hr, rfl⟩
  rcases List.mem_map.mp hrc with ⟨c, hc, rfl⟩
  exact ⟨List.mem_range.mp hr, List.mem_range.mp hc⟩

/-- An empty cell can actually be read: `nextAvailableCell` hands back a
coordinate whose row and cell reads succeed. -/
theorem nextAvailableCell_reads {g : GridState} {r c : Nat}
    (h : nextAvailableCell g = some (r, c)) :
    r < g.rows ∧ c < g.cols ∧ cellGet g.cells r c = some none := by
  rcases findNone_spec g (allCells g.rows g.cols) (r, c) h with ⟨hmem, hnone⟩
  rcases allCells_bounds hmem with ⟨hr, hc⟩
  refine ⟨hr, hc, ?_⟩
  unfold cellIsNone at hnone
  rcases hcg : cellGet g.cells r c with _ | x
  · rw [hcg] at hnone; simp at hnone
  · rcases x with _ | m
    · rfl
    · rw [hcg] at hnone; simp at hnone

/-- Writing a cell read back through `cellGet`. -/
theorem cellGet_setCell {cells : List (List (Option Model))} {r c : Nat}
    (m : Model) (h : cellGet cells r c = some none) :
    cellGet (setCell cells r c m) r c = some (some m) := by
  unfold cellGet at h
  rcases hrow : cells.get? r with _ | row
  · rw [hrow] at h; exact Option.noConfusion h
  · rw [hrow] at h
    have h2 : row.get? c = some none := h
    unfold setCell cellGet
    simp only [hrow]
    rw [get?_set_back (row.set c (some m)) hrow]
    exact get?_set_back (some m) h2

/-! ## Claim theorems -/

/-- C1: the format detector always returns one of pdb/mmcif/sdf; when the
first retained (non-blank) line starts with `data_` case-insensitively the
result is mmcif regardless of the rest of the text; when no mmCIF marker
matches and an SDF marker occurs anywhere in the text the result is sdf
even when PDB keywords are present; `HEADER    HYDROLASE` detects as pdb;
empty text detects as pdb; and two concrete ambiguous inputs witness the
precedence. -/
theorem detect_format_spec :
    (∀ d : String, detect_format d = MolFormat.pdb ∨ detect_format d = MolFormat.mmcif ∨
      detect_format d = MolFormat.sdf) ∧
    (∀ (d first : String) (rest : List String), detectLines d = first :: rest →
      pyStarts (pyLower first) ("data_") = true → detect_format d = MolFormat.mmcif) ∧
    (∀ (d first : String) (rest : List String), detectLines d = first :: rest →
      pyStarts (pyLower first) ("data_") = false →
      (first :: rest).any cifLine = false →
      sdfMarker d = true → detect_format d = MolFormat.sdf) ∧
    detect_format ("HEADER    HYDROLASE") = MolFormat.pdb ∧
    detect_format ("") = MolFormat.pdb ∧
    detect_format ("data_test\n$$$$\nM  END\nV2000\nATOM") = MolFormat.mmcif ∧
    detect_format ("$$$$\nHEADER    SOMETHING") = MolFormat.sdf := by
  refine ⟨?_, ?_, ?_, by decide, by decide, by decide, by decide⟩
  · intro d
    cases h : detect_format d <;> simp [h]
  · intro d first rest h1 h2
    unfold detect_format
    rw [h1]
    simp [h2]
  · intro d first rest h1 h2 h3 h4
    unfold detect_format
    rw [h1]
    simp [h2, h3, h4]

/-- Witness for C1: the `data_` rule applied at a concrete input whose
hypotheses are discharged by evaluation. -/
theorem detect_format_spec_witness :
    detectLines ("data_1abc\nM  END") = [("data_1abc"), ("M  END")] ∧
    pyStarts (pyLower ("data_1abc")) ("data_") = true ∧
    detect_format ("data_1abc\nM  END") = MolFormat.mmcif :=
  ⟨by decide, by decide,
    detect_format_spec.2.1 ("data_1abc\nM  END") ("data_1abc") [("M  END")]
      (by decide) (by decide)⟩

/-- C8: `generate_gradient(['#000000','#FFFFFF'], 3)` produces exactly the
truncated midpoint `#7F7F7F` between the two endpoints. -/
theorem gradient_midpoint_spec :
    generate_gradient [("#000000"), ("#FFFFFF")] 3
      = Except.ok [("#000000"), ("#7F7F7F"), ("#FFFFFF")] := by decide

/-- C10: `clear` empties the linear model list and resets the active index
to -1, and leaves every other field — the grid cells and every display
setting — exactly as it was. -/
theorem clear_spec :
    ∀ v : MolView,
      (v.clear).models = [] ∧
      (v.clear).current_model_index = -1 ∧
      (v.clear).grid = v.grid ∧
      (v.clear).color_mode = v.color_mode ∧
      (v.clear).color_params = v.color_params ∧
      (v.clear).background_color = v.background_color ∧
      (v.clear).surface_enabled = v.surface_enabled ∧
      (v.clear).surface_opacity = v.surface_opacity ∧
      (v.clear).illustrative_enabled = v.illustrative_enabled ∧
      (v.clear).spin_enabled = v.spin_enabled ∧
      (v.clear).spin_speed = v.spin_speed ∧
      (v.clear).show_sequence = v.show_sequence ∧
      (v.clear).show_animation = v.show_animation ∧
      (v.clear).remove_solvent = v.remove_solvent ∧
      (v.clear).style_cartoon = v.style_cartoon ∧
      (v.clear).style_stick = v.style_stick ∧
      (v.clear).style_sphere = v.style_sphere ∧
      (v.clear).style_line = v.style_line ∧
      (v.clear).width = v.width ∧
      (v.clear).height = v.height ∧
      (v.clear).panel = v.panel ∧
      (v.clear).total_viewers = v.total_viewers := by
  intro v
  and_intros <;> rfl

/-- C2: on a fresh 2×2 grid viewer, four auto-placed `addModel` calls fill
(0,0), (0,1), (1,0), (1,1) in that row-major order; the fifth auto-placed
call fails with the capacity error; an explicit placement at (2,0) fails
with the out-of-bounds error; and in general an auto-placement on a full
grid raises the capacity error and an explicit out-of-range placement
raises the out-of-bounds error. -/
theorem grid_placement_spec :
    okOccCells (gvN 1) = some [(0, 0)] ∧
    okOccCells (gvN 2) = some [(0, 0), (0, 1)] ∧
    okOccCells (gvN 3) = some [(0, 0), (0, 1), (1, 0)] ∧
    okOccCells (gvN 4) = some [(0, 0), (0, 1), (1, 0), (1, 1)] ∧
    gvN 5 = Except.error (PyError.valueError (gridFullMsg 2 2)) ∧
    gridV0.addModel ("HEADER    TEST") (some ("pdb")) false (some (2, 0)) none
      = Except.error (PyError.valueError (oobMsg 2 0 2 2)) ∧
    (∀ (v : MolView) (g : GridState) (d : String), v.grid = some g →
      nextAvailableCell g = none →
      v.addModel d (some ("pdb")) false none none
        = Except.error (PyError.valueError (gridFullMsg g.rows g.cols))) ∧
    (∀ (v : MolView) (g : GridState) (d : String) (r c : Int), v.grid = some g →
      ¬(0 ≤ r ∧ r < (g.rows : Int) ∧ 0 ≤ c ∧ c < (g.cols : Int)) →
      v.addModel d (some ("pdb")) false (some (r, c)) none
        = Except.error (PyError.valueError (oobMsg r c g.rows g.cols))) := by
  refine ⟨by decide, by decide, by decide, by decide, by decide, by decide, ?_, ?_⟩
  · intro v g d h1 h2
    have e : v.addModel d (some ("pdb")) false none none
        = addModelPlace v d ("pdb") false none none := rfl
    rw [e]
    unfold addModelPlace
    simp [h1, h2]
  · intro v g d r c h1 h2
    have e : v.addModel d (some ("pdb")) false (some (r, c)) none
        = addModelPlace v d ("pdb") false (some (r, c)) none := rfl
    rw [e]
    unfold addModelPlace
    simp only [h1]
    rw [if_neg h2]

/-- Witness for C2: the out-of-bounds rule applied to the fresh 2×2 grid at
position (2,0). -/
theorem grid_placement_witness :
    gridV0.grid = some grid22 ∧
    ¬((0 : Int) ≤ 2 ∧ (2 : Int) < (grid22.rows : Int) ∧ (0 : Int) ≤ 0 ∧
      (0 : Int) < (grid22.cols : Int)) ∧
    gridV0.addModel ("X") (some ("pdb")) false (some (2, 0)) none
      = Except.error (PyError.valueError (oobMsg 2 0 grid22.rows grid22.cols)) :=
  ⟨rfl, by decide,
    grid_placement_spec.2.2.2.2.2.2.2 gridV0 grid22 ("X") 2 0 rfl (by decide)⟩

/-- Counterexample to C3: on a fresh 2×2 grid, an auto-placed structure is
assigned cell (0,0) but is named `Structure 1`, not `Structure (0,0)` as
the claim states. -/
theorem grid_autoname_cex :
    okCellName (gridV0.addModel ("HEADER    TEST") (some ("pdb")) false none none) 0 0
      = some ("Structure 1") ∧
    (("Structure 1") : String) ≠ ("Structure (0,0)") := by decide

/-- C3 as amended: without an explicit name, a linear-mode structure is
named `Structure {1-based count}`; a grid-mode *auto-placed* structure is
also named `Structure {1-based occupied count}` (not after its cell); and
only an *explicitly placed* grid structure is named `Structure (row,col)`. -/
theorem default_name_spec :
    (∀ (v : MolView) (d : String), v.grid = none →
      okLastName (v.addModel d (some ("pdb")) false none none)
        = some (("Structure ") ++ toString (v.models.length + 1))) ∧
    (∀ (v : MolView) (g : GridState) (d : String) (r c : Nat),
      v.grid = some g → nextAvailableCell g = some (r, c) →
      okCellName (v.addModel d (some ("pdb")) false none none) r c
        = some (("Structure ") ++ toString (occupiedCount g + 1))) ∧
    okCellName (gridV0.addModel ("HEADER    TEST") (some ("pdb")) false (some (1, 0)) none) 1 0
      = some ("Structure (1,0)") ∧
    okCellName (gvN 2) 0 1 = some ("Structure 2") := by
  refine ⟨?_, ?_, by decide, by decide⟩
  · intro v d h
    have e : v.addModel d (some ("pdb")) false none none
        = addModelPlace v d ("pdb") false none none := rfl
    rw [e]
    unfold addModelPlace
    simp [h, okLastName]
  · intro v g d r c h1 h2
    rcases nextAvailableCell_reads h2 with ⟨hr, hc, hget⟩
    have e : v.addModel d (some ("pdb")) false none none
        = addModelPlace v d ("pdb") false none none := rfl
    rw [e]
    unfold addModelPlace
    simp only [h1, h2]
    have hb : 0 ≤ ((r : Nat) : Int) ∧ ((r : Nat) : Int) < (g.rows : Int) ∧
        0 ≤ ((c : Nat) : Int) ∧ ((c : Nat) : Int) < (g.cols : Int) := by
      refine ⟨Int.ofNat_nonneg r, ?_, Int.ofNat_nonneg c, ?_⟩
      · exact_mod_cast hr
      · exact_mod_cast hc
    rw [if_pos hb]
    unfold okCellName
    simp only [Int.toNat_ofNat]
    rw [cellGet_setCell _ hget]

/-- Witness for C3 (amended): the linear naming rule applied to the fresh
linear viewer. -/
theorem default_name_witness :
    linearV0.grid = none ∧
    okLastName (linearV0.addModel ("ATOM") (some ("pdb")) false none none)
      = some (("Structure ") ++ toString (linearV0.models.length + 1)) :=
  ⟨rfl, default_name_spec.1 linearV0 ("ATOM") rfl⟩

/-- Counterexample to C4: the mode name `uniform` is not accepted by the
color theme resolver — it raises the unknown-mode error. -/
theorem uniform_mode_cex :
    get_color_theme ("uniform") noKwargs
      = Except.error (PyError.valueError (unknownModeMsg ("uniform"))) := by decide

/-- C4 as amended: the resolver accepts the mode name `custom`
(case-insensitively), producing the single-color theme whose renderer
config is tagged `uniform`, with the color defaulting to the fixed teal
`#4ECDC4` when omitted; the mode name `uniform` itself is rejected with an
invalid-argument error for every argument set. -/
theorem custom_mode_spec :
    (∀ (s : String) (kw : ColorKwargs), pyLower s = ("custom") →
      get_color_theme s kw = Except.ok (ColorTheme.custom (kw.color.getD ("#4ECDC4")))) ∧
    get_color_theme ("CUSTOM") noKwargs = Except.ok (ColorTheme.custom ("#4ECDC4")) ∧
    (ColorTheme.custom ("#4ECDC4")).to_molstar_config
      = Except.ok { name := ("uniform"), params := ColorParams.uniformValue 5164484 } ∧
    (∀ kw : ColorKwargs, get_color_theme ("uniform") kw
      = Except.error (PyError.valueError (unknownModeMsg ("uniform")))) := by
  refine ⟨?_, by decide, by decide, ?_⟩
  · intro s kw h
    unfold get_color_theme
    simp [h]
  · intro kw
    rfl

/-- Witness for C4 (amended): case-insensitive acceptance of `custom` at a
mixed-case input. -/
theorem custom_mode_witness :
    pyLower ("CuStOm") = ("custom") ∧
    get_color_theme ("CuStOm") noKwargs = Except.ok (ColorTheme.custom ("#4ECDC4")) :=
  ⟨by decide, custom_mode_spec.1 ("CuStOm") noKwargs (by decide)⟩

/-- C5: `setColorMode` is atomic — every success replaces `color_mode` and
`color_params` together with the name and params of one resolved config and
changes nothing else of the state; every resolver failure (unknown mode,
rainbow with an unregistered palette) and every config-construction failure
propagates as the same error, and an error result leaves the viewer state
untouched (in this embedding an `Except.error` result produces no new
state, matching the source where the `raise` precedes both attribute
assignments). -/
theorem setColorMode_atomic :
    (∀ (v : MolView) (mode : String) (kw : ColorKwargs) (v' : MolView),
      v.setColorMode mode kw = Except.ok v' →
      ∃ cfg : MolstarConfig,
        v' = { v with color_mode := cfg.name, color_params := cfg.params }) ∧
    (∀ (v : MolView) (mode : String) (kw : ColorKwargs) (e : PyError),
      get_color_theme mode kw = Except.error e →
      v.setColorMode mode kw = Except.error e) ∧
    (∀ (v : MolView) (mode : String) (kw : ColorKwargs) (t : ColorTheme) (e : PyError),
      get_color_theme mode kw = Except.ok t →
      t.to_molstar_config = Except.error e →
      v.setColorMode mode kw = Except.error e) ∧
    (∀ (v : MolView) (kw : ColorKwargs) (p : String),
      kw.palette = some p → lookupPalette p = none →
      v.setColorMode ("rainbow") kw
        = Except.error (PyError.valueError (unknownPaletteMsg p))) ∧
    (∀ (v : MolView) (kw : ColorKwargs),
      v.setColorMode ("bogus") kw
        = Except.error (PyError.valueError (unknownModeMsg ("bogus")))) := by
  refine ⟨?_, ?_, ?_, ?_, ?_⟩
  · intro v mode kw v' h
    unfold MolView.setColorMode at h
    rcases hg : get_color_theme mode kw with e | t
    · simp only [hg] at h
      exact Except.noConfusion h
    · simp only [hg] at h
      rcases hc : t.to_molstar_config with e | cfg
      · simp only [hc] at h
        exact Except.noConfusion h
      · simp only [hc] at h
        exact ⟨cfg, (Except.ok.inj h).symm⟩
  · intro v mode kw e h
    unfold MolView.setColorMode
    simp only [h]
  · intro v mode kw t e hg hc
    unfold MolView.setColorMode
    simp only [hg, hc]
  · intro v kw p hp hl
    have e1 : get_color_theme ("rainbow") kw
        = (match lookupPalette (kw.palette.getD ("rainbow")) with
           | some cs => Except.ok (ColorTheme.rainbow (kw.palette.getD ("rainbow")) cs)
           | none => Except.error (PyError.valueError
               (unknownPaletteMsg (kw.palette.getD ("rainbow"))))) := rfl
    have e2 : kw.palette.getD ("rainbow") = p := by rw [hp]; rfl
    unfold MolView.setColorMode
    rw [e1]
    simp only [e2, hl]
  · intro v kw
    rfl

/-- Witness for C5: the rainbow-with-unknown-palette failure at a concrete
palette name. -/
theorem setColorMode_atomic_witness :
    (⟨none, some ("nope"), none, none, none, none⟩ : ColorKwargs).palette = some ("nope") ∧
    lookupPalette ("nope") = none ∧
    linearV0.setColorMode ("rainbow") ⟨none, some ("nope"), none, none, none, none⟩
      = Except.error (PyError.valueError (unknownPaletteMsg ("nope"))) :=
  ⟨rfl, by decide,
    setColorMode_atomic.2.2.2.1 linearV0 ⟨none, some ("nope"), none, none, none, none⟩
      ("nope") rfl (by decide)⟩

/-- Counterexample to C6: `setColorMode('custom', color='#GGGGGG')` does
not succeed — the hex-to-integer conversion runs inside `setColorMode`
(via `to_molstar_config`, viewer.py:326), so the malformed hex raises
synchronously at the call, not at render. -/
theorem deferred_hex_cex :
    linearV0.setColorMode ("custom") ⟨some ("#GGGGGG"), none, none, none, none, none⟩
      = Except.error (PyError.valueError
          (("invalid literal for int with base 16: ") ++ ("GGGGGG"))) := by decide

/-- C6 as amended: all setter validation failures are synchronous at the
offending call, including malformed color hex strings — for any color whose
hex parse fails, `setColorMode('custom', ...)` itself raises the
integer-conversion error; `setLayout` likewise rejects a bad mode at the
call. -/
theorem sync_validation_spec :
    (∀ (v : MolView) (kw : ColorKwargs) (c : String), kw.color = some c →
      pyParseInt16 (removeHash c) = none →
      v.setColorMode ("custom") kw
        = Except.error (PyError.valueError
            (("invalid literal for int with base 16: ") ++ removeHash c))) ∧
    (∀ (v : MolView) (m : String), (m == ("single") || m == ("grid")) = false →
      v.setLayout m = Except.error (PyError.valueError ("mode must be single or grid"))) := by
  refine ⟨?_, ?_⟩
  · intro v kw c hc hp
    have e1 : get_color_theme ("custom") kw
        = Except.ok (ColorTheme.custom (kw.color.getD ("#4ECDC4"))) := rfl
    have e2 : kw.color.getD ("#4ECDC4") = c := by rw [hc]; rfl
    have e3 : (ColorTheme.custom c).to_molstar_config
        = Except.error (PyError.valueError
            (("invalid literal for int with base 16: ") ++ removeHash c)) := by
      unfold ColorTheme.to_molstar_config hexToIntE
      simp only [hp]
    unfold MolView.setColorMode
    rw [e1]
    simp only [e2, e3]
  · intro v m h
    unfold MolView.setLayout
    simp [h]

/-- Witness for C6 (amended): the synchronous failure at a concrete
malformed color. -/
theorem sync_validation_witness :
    (⟨some ("#XYZ"), none, none, none, none, none⟩ : ColorKwargs).color = some ("#XYZ") ∧
    pyParseInt16 (removeHash ("#XYZ")) = none ∧
    linearV0.setColorMode ("custom") ⟨some ("#XYZ"), none, none, none, none, none⟩
      = Except.error (PyError.valueError
          (("invalid literal for int with base 16: ") ++ removeHash ("#XYZ"))) :=
  ⟨rfl, by decide,
    sync_validation_spec.1 linearV0 ⟨some ("#XYZ"), none, none, none, none, none⟩
      ("#XYZ") rfl (by decide)⟩

/-- Counterexample to C7: with an empty color list and step count 1, the
gradient utility does not return an empty result — the `S == 1` branch
indexes `colors[0]` before the `N == 0` check and raises IndexError. -/
theorem gradient_edge_cex :
    generate_gradient [] 1 = Except.error (PyError.indexError ("list index out of range")) ∧
    generate_gradient [] 1 ≠ Except.ok [] := by decide

/-- C7 as amended: S ≤ 0 yields an empty result for every color list;
S == 1 yields the first color only when at least one color exists, but
raises IndexError on an empty color list; N == 0 yields an empty result for
every S other than 1; and N == 1 yields that color repeated S times for
every S ≥ 1. -/
theorem gradient_edge_spec :
    (∀ (colors : List String) (steps : Int), steps ≤ 0 →
      generate_gradient colors steps = Except.ok []) ∧
    (∀ (c : String) (rest : List String),
      generate_gradient (c :: rest) 1 = Except.ok [c]) ∧
    (∀ steps : Int, steps ≠ 1 → generate_gradient [] steps = Except.ok []) ∧
    generate_gradient [] 1 = Except.error (PyError.indexError ("list index out of range")) ∧
    (∀ (c : String) (steps : Int), 1 ≤ steps →
      generate_gradient [c] steps = Except.ok (List.replicate steps.toNat c)) := by
  refine ⟨?_, ?_, ?_, by decide, ?_⟩
  · intro colors steps h
    unfold generate_gradient
    rw [if_pos h]
  · intro c rest
    unfold generate_gradient
    norm_num
  · intro steps h
    unfold generate_gradient
    by_cases h0 : steps ≤ 0
    · rw [if_pos h0]
    · rw [if_neg h0]
      have h1 : (steps == 1) = false := by
        simp only [beq_eq_false_iff_ne, ne_eq]
        exact h
      rw [h1]
      simp
  · intro c steps h
    by_cases h1 : steps = 1
    · subst h1
      unfold generate_gradient
      norm_num
    · have h2 : 2 ≤ steps := by omega
      unfold generate_gradient
      have h0 : ¬(steps ≤ 0) := by omega
      rw [if_neg h0]
      have hb : (steps == 1) = false := by
        simp only [beq_eq_false_iff_ne, ne_eq]
        exact h1
      rw [hb]
      simp

/-- Witness for C7 (amended): the S ≤ 0 rule at a concrete negative step
count. -/
theorem gradient_edge_witness :
    ((-2 : Int) ≤ 0) ∧ generate_gradient [("#FF0000")] (-2) = Except.ok [] :=
  ⟨by decide, gradient_edge_spec.1 [("#FF0000")] (-2) (by decide)⟩

/-- C9: both remote-fetch operations translate an HTTP 404 from the
constructed URL into a domain-level `ValueError` not-found failure, while
any other HTTP failure propagates unchanged as the transport error, and the
two failure kinds are distinct values. -/
theorem fetch_404_spec :
    (∀ (http : String → HttpResult) (pid : String),
      http (rcsbUrl (pyUpper (pyStrip pid)) ("pdb")) = HttpResult.failure 404 →
      fetch_pdb http pid ("pdb")
        = Except.error (PyError.valueError
            (("PDB ID ") ++ pyUpper (pyStrip pid) ++ (" not found in RCSB PDB database")))) ∧
    (∀ (http : String → HttpResult) (pid : String) (code : Nat),
      http (rcsbUrl (pyUpper (pyStrip pid)) ("pdb")) = HttpResult.failure code →
      code ≠ 404 →
      fetch_pdb http pid ("pdb") = Except.error (PyError.httpError code)) ∧
    (∀ (http : String → HttpResult) (uid : String) (version : Nat),
      http (alphafoldUrl (pyUpper (pyStrip uid)) version) = HttpResult.failure 404 →
      fetch_alphafold http uid version
        = Except.error (PyError.valueError
            (("UniProt ID ") ++ pyUpper (pyStrip uid) ++
              (" not found in AlphaFold DB (version ") ++ toString version ++ (")")))) ∧
    (∀ (http : String → HttpResult) (uid : String) (version code : Nat),
      http (alphafoldUrl (pyUpper (pyStrip uid)) version) = HttpResult.failure code →
      code ≠ 404 →
      fetch_alphafold http uid version = Except.error (PyError.httpError code)) ∧
    (∀ (m : String) (c : Nat), PyError.valueError m ≠ PyError.httpError c) := by
  refine ⟨?_, ?_, ?_, ?_, ?_⟩
  · intro http pid h
    have e0 : fetch_pdb http pid ("pdb")
        = handle404 (("PDB ID ") ++ pyUpper (pyStrip pid) ++ (" not found in RCSB PDB database"))
            (http (rcsbUrl (pyUpper (pyStrip pid)) ("pdb"))) := rfl
    rw [e0, h]
    rfl
  · intro http pid code h hne
    have e0 : fetch_pdb http pid ("pdb")
        = handle404 (("PDB ID ") ++ pyUpper (pyStrip pid) ++ (" not found in RCSB PDB database"))
            (http (rcsbUrl (pyUpper (pyStrip pid)) ("pdb"))) := rfl
    have hb : (code == 404) = false := by
      simp only [beq_eq_false_iff_ne, ne_eq]
      exact hne
    rw [e0, h]
    unfold handle404
    simp [hb]
  · intro http uid version h
    have e0 : fetch_alphafold http uid version
        = handle404 (("UniProt ID ") ++ pyUpper (pyStrip uid) ++
            (" not found in AlphaFold DB (version ") ++ toString version ++ (")"))
            (http (alphafoldUrl (pyUpper (pyStrip uid)) version)) := rfl
    rw [e0, h]
    rfl
  · intro http uid version code h hne
    have e0 : fetch_alphafold http uid version
        = handle404 (("UniProt ID ") ++ pyUpper (pyStrip uid) ++
            (" not found in AlphaFold DB (version ") ++ toString version ++ (")"))
            (http (alphafoldUrl (pyUpper (pyStrip uid)) version)) := rfl
    have hb : (code == 404) = false := by
      simp only [beq_eq_false_iff_ne, ne_eq]
      exact hne
    rw [e0, h]
    unfold handle404
    simp [hb]
  · intro m c h
    exact PyError.noConfusion h

/-- Fixed HTTP oracle that always reports 404. -/
def http404 : String → HttpResult := fun _ => HttpResult.failure 404

/-- Witness for C9: the 404 translation at a concrete PDB id. -/
theorem fetch_404_witness :
    http404 (rcsbUrl (pyUpper (pyStrip ("1ubq"))) ("pdb")) = HttpResult.failure 404 ∧
    fetch_pdb http404 ("1ubq") ("pdb")
      = Except.error (PyError.valueError
          (("PDB ID ") ++ pyUpper (pyStrip ("1ubq")) ++ (" not found in RCSB PDB database"))) :=
  ⟨rfl, fetch_404_spec.1 http404 ("1ubq") rfl⟩
